import Mathlib

/-!
Verification of the File-Analyzer core (`file_analyzer/content_analyzer.py` and
`file_analyzer/report_generator.py`) against its natural-language specification.

The Python modules are shallowly embedded: the file system is a function from
paths to optional byte lists, Python exceptions are `Except String`, dicts that
act as tagged records become inductive types, and float arithmetic is modelled
by exact rationals (with round-half-to-even for Python's `round`).  All inputs
are assumed ASCII-clean where Python's unicode-aware primitives would otherwise
differ (noted at each definition).
-/

namespace FileAnalyzer

/-! ## Character and string utilities (ASCII models of Python primitives) -/

/-- Model of `str.lower` for ASCII characters. -/
def pyLowerChar (c : Char) : Char :=
  if 'A' ≤ c ∧ c ≤ 'Z' then Char.ofNat (c.toNat + 32) else c

/-- ASCII letter, the character class `[A-Za-z]` of the analyzer's regex. -/
def isAsciiLetter (c : Char) : Bool :=
  ('a' ≤ c && c ≤ 'z') || ('A' ≤ c && c ≤ 'Z')

/-- Regex word character (`\w` restricted to ASCII): letter, digit or underscore. -/
def isWordChar (c : Char) : Bool :=
  isAsciiLetter c || c.isDigit || c == '_'

/-- Python whitespace (ASCII subset): space, tab, newline, carriage return,
vertical tab and form feed, as used by `str.split()` and `str.strip()`. -/
def isPySpace (c : Char) : Bool :=
  c == ' ' || c == '\t' || c == '\n' || c == '\r' || c == '\x0b' || c == '\x0c'

/-- Model of Python `str.split(sep)` for a one-character separator:
splitting the empty string yields one empty segment. -/
def splitOnChar (sep : Char) : List Char → List (List Char)
  | [] => [[]]
  | c :: cs =>
    match splitOnChar sep cs with
    | [] => [[]]
    | r :: rs => if c = sep then [] :: r :: rs else (c :: r) :: rs

/-- Helper for `splitWS`: accumulates the current (reversed) token. -/
def splitWSAux (cur : List Char) : List Char → List (List Char)
  | [] => if cur = [] then [] else [cur.reverse]
  | c :: cs =>
    if isPySpace c then
      if cur = [] then splitWSAux [] cs else cur.reverse :: splitWSAux [] cs
    else splitWSAux (c :: cur) cs

/-- Model of Python `str.split()` (no argument): maximal runs of
non-whitespace characters; no empty tokens. -/
def splitWS (cs : List Char) : List (List Char) :=
  splitWSAux [] cs

/-- Model of Python `str.strip()` (ASCII whitespace). -/
def stripWS (cs : List Char) : List Char :=
  ((cs.dropWhile isPySpace).reverse.dropWhile isPySpace).reverse

/-! ## Tokenization for `common_words`

The source runs `re.findall` with the pattern `\b[a-zA-Z]\x7b3,\x7d\b` over the
lower-cased content.  Over ASCII text its matches are exactly the maximal runs
of letters of length at least 3 whose neighbouring characters (when they
exist) are not word characters (letters, digits, underscore). -/

/-- A neighbouring position satisfies the regex word boundary `\b` when it is
the edge of the text or a non-word character. -/
def boundOk : Option Char → Bool
  | none => true
  | some c => !(isWordChar c)

/-- Scanner for `\b[a-zA-Z]\x7b3,\x7d\b` matches.  `lastSep` is the character
just before the current letter run (none at the start of text), `cur` the
current run, reversed. -/
def wordsAux (lastSep : Option Char) (cur : List Char) : List Char → List (List Char)
  | [] => if 3 ≤ cur.length ∧ boundOk lastSep then [cur.reverse] else []
  | c :: cs =>
    if isAsciiLetter c then wordsAux lastSep (c :: cur) cs
    else
      let rest := wordsAux (some c) [] cs
      if 3 ≤ cur.length ∧ boundOk lastSep ∧ boundOk (some c) then cur.reverse :: rest
      else rest

/-- The token stream of `TextAnalyzer.analyze_text_file`:
`re.findall` of the word pattern over the lower-cased content. -/
def tokensOf (cs : List Char) : List String :=
  (wordsAux none [] (cs.map pyLowerChar)).map (fun w => String.mk w)

/-- Helper for `specTokens`: maximal letter runs of length at least 3,
with no boundary requirement. -/
def specTokensAux (cur : List Char) : List Char → List (List Char)
  | [] => if 3 ≤ cur.length then [cur.reverse] else []
  | c :: cs =>
    if isAsciiLetter c then specTokensAux (c :: cur) cs
    else if 3 ≤ cur.length then cur.reverse :: specTokensAux [] cs
    else specTokensAux [] cs

/-- Modelled from the spec: occurrences of the bare pattern
`[A-Za-z]\x7b3,\x7d` (no word-boundary anchors) in the lower-cased text, the
counting rule the specification states for `common_words`.  Kept separate from
`tokensOf`, which models the source's anchored pattern, so the two can be
compared. -/
def specTokens (cs : List Char) : List String :=
  (specTokensAux [] (cs.map pyLowerChar)).map (fun w => String.mk w)

/-! ## Counter.most_common model -/

/-- First-occurrence deduplication; `collections.Counter` iterates its keys in
first-insertion order. -/
def dedupFirstAux (seen : List String) : List String → List String
  | [] => []
  | x :: xs => if x ∈ seen then dedupFirstAux seen xs else x :: dedupFirstAux (x :: seen) xs

/-- Distinct tokens in first-occurrence order. -/
def dedupFirst (l : List String) : List String :=
  dedupFirstAux [] l

/-- Comparison used by `Counter.most_common`: larger count first. -/
def cntGe (a b : String × Nat) : Prop := b.2 ≤ a.2

instance : DecidableRel cntGe := fun a b => Nat.decLe b.2 a.2

instance : IsTotal (String × Nat) cntGe := ⟨fun a b => Nat.le_total b.2 a.2⟩

instance : IsTrans (String × Nat) cntGe := ⟨fun _ _ _ hab hbc => Nat.le_trans hbc hab⟩

/-- The Counter's items: distinct tokens in first-occurrence order, each with
its number of occurrences in the token stream. -/
def wordPairs (cs : List Char) : List (String × Nat) :=
  (dedupFirst (tokensOf cs)).map (fun w => (w, (tokensOf cs).count w))

/-- Model of `Counter(meaningful_words).most_common(5)`: a stable sort of the
counter items by descending count, truncated to five entries. -/
def commonWords (cs : List Char) : List (String × Nat) :=
  (List.insertionSort cntGe (wordPairs cs)).take 5

/-! ## Python round, modelled over exact rationals -/

/-- Round to the nearest integer, ties to even (Python's `round`). -/
def roundHalfEven (x : ℚ) : ℤ :=
  let n := ⌊x⌋
  let f := x - n
  if f < 1/2 then n
  else if 1/2 < f then n + 1
  else if n % 2 = 0 then n else n + 1

/-- Model of Python `round(x, 2)` with floats read as exact rationals. -/
def round2 (x : ℚ) : ℚ :=
  (roundHalfEven (x * 100) : ℚ) / 100

/-! ## Codecs

Byte-level models of the four codecs in the analyzer's fallback list.  A file's
content is a list of byte values; a codec either fails (Python raises
`UnicodeDecodeError`) or yields the decoded characters. -/

/-- A UTF-8 continuation byte. -/
def isContByte (b : Nat) : Bool := 0x80 ≤ b && b < 0xC0

/-- Prepends a character to an optional decoded tail. -/
def consDec (c : Char) : Option (List Char) → Option (List Char)
  | some cs => some (c :: cs)
  | none => none

/-- Strict UTF-8 decoder: rejects overlong forms, surrogates, values past
U+10FFFF and truncated sequences, as CPython's `utf-8` codec does. -/
def decodeUtf8 : List Nat → Option (List Char)
  | [] => some []
  | b :: bs =>
    if b < 0x80 then consDec (Char.ofNat b) (decodeUtf8 bs)
    else if b < 0xC2 then none
    else if b < 0xE0 then
      match bs with
      | b2 :: rest =>
        if isContByte b2 then
          consDec (Char.ofNat ((b % 32) * 64 + (b2 % 64))) (decodeUtf8 rest)
        else none
      | [] => none
    else if b < 0xF0 then
      match bs with
      | b2 :: b3 :: rest =>
        let cp := (b % 16) * 4096 + (b2 % 64) * 64 + (b3 % 64)
        if isContByte b2 && isContByte b3 && 0x800 ≤ cp && (cp < 0xD800 || 0xE000 ≤ cp) then
          consDec (Char.ofNat cp) (decodeUtf8 rest)
        else none
      | _ => none
    else if b < 0xF5 then
      match bs with
      | b2 :: b3 :: b4 :: rest =>
        let cp := (b % 8) * 262144 + (b2 % 64) * 4096 + (b3 % 64) * 64 + (b4 % 64)
        if isContByte b2 && isContByte b3 && isContByte b4 && 0x10000 ≤ cp && cp ≤ 0x10FFFF then
          consDec (Char.ofNat cp) (decodeUtf8 rest)
        else none
      | _ => none
    else none

/-- Pairs bytes into 16-bit units (big- or little-endian); fails on an odd
number of bytes, as the `utf-16` codec does on truncated data. -/
def utf16Units (be : Bool) : List Nat → Option (List Nat)
  | [] => some []
  | [_] => none
  | b1 :: b2 :: rest =>
    match utf16Units be rest with
    | some us => some ((if be then b1 * 256 + b2 else b2 * 256 + b1) :: us)
    | none => none

/-- Combines UTF-16 code units, pairing surrogates; lone surrogates fail. -/
def utf16Chars : List Nat → Option (List Char)
  | [] => some []
  | u :: us =>
    if u < 0xD800 || 0xE000 ≤ u then consDec (Char.ofNat u) (utf16Chars us)
    else if u < 0xDC00 then
      match us with
      | u2 :: rest =>
        if 0xDC00 ≤ u2 && u2 < 0xE000 then
          consDec (Char.ofNat (0x10000 + (u - 0xD800) * 1024 + (u2 - 0xDC00))) (utf16Chars rest)
        else none
      | [] => none
    else none

/-- Model of the `utf-16` codec: honours a byte-order mark, defaults to
little-endian without one. -/
def decodeUtf16 (bs : List Nat) : Option (List Char) :=
  match bs with
  | 0xFF :: 0xFE :: rest =>
    match utf16Units false rest with
    | some us => utf16Chars us
    | none => none
  | 0xFE :: 0xFF :: rest =>
    match utf16Units true rest with
    | some us => utf16Chars us
    | none => none
  | _ =>
    match utf16Units false bs with
    | some us => utf16Chars us
    | none => none

/-- Model of the `ascii` codec: every byte must be below 128. -/
def decodeAscii (bs : List Nat) : Option (List Char) :=
  if bs.all (fun b => b < 128) then some (bs.map Char.ofNat) else none

/-- Model of the `latin-1` codec: total, each byte maps to the character with
the same code point. -/
def decodeLatin1 (bs : List Nat) : Option (List Char) :=
  some (bs.map Char.ofNat)

/-- The fixed encoding fallback list of `TextAnalyzer.analyze_text_file`,
in source order. -/
def encCandidates : List (String × (List Nat → Option (List Char))) :=
  [("utf-8", decodeUtf8), ("utf-16", decodeUtf16), ("ascii", decodeAscii), ("latin-1", decodeLatin1)]

/-- The decoding loop: try each candidate in order, keep the first decode that
succeeds along with the name recorded as `encoding_used`. -/
def tryEncodingsAux : List (String × (List Nat → Option (List Char))) → List Nat →
    Option (String × List Char)
  | [], _ => none
  | (name, dec) :: rest, bs =>
    match dec bs with
    | some cs => some (name, cs)
    | none => tryEncodingsAux rest bs

/-- First encoding of the fallback list that decodes the bytes. -/
def tryEncodings (bs : List Nat) : Option (String × List Char) :=
  tryEncodingsAux encCandidates bs

/-! ## Analysis results

The analyzer functions return Python dicts used as tagged records; each dict
shape becomes one constructor, fields in the source's key order. -/

/-- Per-column record of `DataAnalyzer.analyze_csv_file`. -/
structure ColStats where
  non_empty_count : Nat
  unique_values : Nat
  sample_values : List String
deriving DecidableEq, Repr

/-- Root classification of `analyze_json_structure` (always invoked at depth 0,
so `max_depth` is constantly 0 and implicit here). -/
inductive JStruct where
  | obj (keys : Nat) (key_names : List String)
  | arr (length : Nat) (item_types : List String)
  | scalar (typeName : String)
deriving DecidableEq, Repr

/-- The closed variant of analysis outcomes. -/
inductive AnalysisResult where
  | textStats (total_lines total_words total_characters characters_no_spaces : Nat)
      (average_words_per_line : ℚ) (common_words : List (String × Nat)) (encoding_used : String)
  | pythonCode (imports functions classes comments docstrings estimated_complexity
      total_lines blank_lines : Nat)
  | csvData (total_rows data_rows columns : Nat) (headers : List String) (delimiter : String)
      (column_analysis : List (String × ColStats))
  | jsonData (struct : JStruct) (estimated_size : Nat)
  | unsupported (typeName message : String) (suggestion : Option String)
  | err (message : String)
deriving DecidableEq, Repr

/-- The file system: a path either yields the file's bytes or fails to open. -/
def FileSystem := String → Option (List Nat)

/-- Message of the `OSError` raised by `open` on a missing or unreadable file. -/
def ioErrMsg (path : String) : String :=
  "[Errno 2] No such file or directory: " ++ path

/-- Message of a `UnicodeDecodeError` from the strict `utf-8` codec
(exception text abbreviated; only its distinctness matters here). -/
def utf8ErrMsg : String := "utf-8 codec cannot decode byte"

/-- The `except Exception` wrapper every sub-analyzer ends with: an internal
exception becomes an error record with the analyzer's message text. -/
def runCaught (pre : String) (x : Except String AnalysisResult) : AnalysisResult :=
  match x with
  | .ok r => r
  | .error e => .err (pre ++ e)

/-! ## TextAnalyzer -/

/-- Statistics of a decoded text, as assembled by
`TextAnalyzer.analyze_text_file` on its success path. -/
def textStatsOf (content : List Char) (encName : String) : AnalysisResult :=
  let lineCount := (splitOnChar '\n' content).length
  let wordCount := (splitWS content).length
  .textStats lineCount wordCount content.length
    (content.filter (fun c => !(c == ' ' || c == '\n' || c == '\t'))).length
    (round2 ((wordCount : ℚ) / ((max lineCount 1 : Nat) : ℚ)))
    (commonWords content) encName

/-- Body of `TextAnalyzer.analyze_text_file` inside its `try`: exceptions are
`Except.error`.  Decode failures of individual encodings are consumed by the
inner loop; only exhausting the list returns the decode-error record. -/
def analyzeTextFileBody (fs : FileSystem) (path : String) : Except String AnalysisResult :=
  match fs path with
  | none => .error (ioErrMsg path)
  | some bs =>
    match tryEncodings bs with
    | none => .ok (.err "Could not decode file with supported encodings")
    | some (enc, content) => .ok (textStatsOf content enc)

/-- `TextAnalyzer.analyze_text_file`. -/
def analyzeTextFile (fs : FileSystem) (path : String) : AnalysisResult :=
  runCaught "Error analyzing text file: " (analyzeTextFileBody fs path)

/-! ## CodeAnalyzer -/

/-- Helper for `countSub`, with fuel bounded by the text length. -/
def countSubFuel (pat : List Char) : Nat → List Char → Nat
  | 0, _ => 0
  | _ + 1, [] => 0
  | fuel + 1, c :: cs =>
    if pat.isPrefixOf (c :: cs) then 1 + countSubFuel pat fuel (cs.drop (pat.length - 1))
    else countSubFuel pat fuel cs

/-- Model of Python `str.count(pat)`: non-overlapping occurrences, scanning
left to right. -/
def countSub (pat : String) (s : List Char) : Nat :=
  countSubFuel pat.data s.length s

/-- The fixed keyword list of the complexity heuristic, in source order. -/
def complexityKeywords : List String :=
  ["if ", "elif ", "else:", "for ", "while ", "try:", "except:", "with "]

/-- Body of `CodeAnalyzer.analyze_python_file` inside its `try`. -/
def analyzePythonBody (fs : FileSystem) (path : String) : Except String AnalysisResult :=
  match fs path with
  | none => .error (ioErrMsg path)
  | some bs =>
    match decodeUtf8 bs with
    | none => .error utf8ErrMsg
    | some content =>
      let lines := splitOnChar '\n' content
      let stripped := lines.map stripWS
      .ok (.pythonCode
        (stripped.filter (fun l =>
          "import ".data.isPrefixOf l || "from ".data.isPrefixOf l)).length
        (stripped.filter (fun l => "def ".data.isPrefixOf l)).length
        (stripped.filter (fun l => "class ".data.isPrefixOf l)).length
        (stripped.filter (fun l => "#".data.isPrefixOf l)).length
        (countSub "\"\"\"" content / 2 + countSub "\x27\x27\x27" content / 2)
        ((complexityKeywords.map (fun kw => countSub kw content)).sum)
        lines.length
        (stripped.filter (fun l => l.isEmpty)).length)

/-- `CodeAnalyzer.analyze_python_file`. -/
def analyzePythonFile (fs : FileSystem) (path : String) : AnalysisResult :=
  runCaught "Error analyzing Python file: " (analyzePythonBody fs path)

/-! ## DataAnalyzer: CSV -/

/-- The rows `csv.reader` yields from a text: `\n`-separated lines, with no
extra row for a trailing newline; a blank line is an empty row.  Quoting is
not modelled (faithful for inputs without quote characters). -/
def csvLines (content : List Char) : List (List Char) :=
  let ls := splitOnChar '\n' content
  if ls.getLast? = some [] then ls.dropLast else ls

/-- Fields of one line under delimiter `d`. -/
def rowOfLine (d : Char) (l : List Char) : List String :=
  if l.isEmpty then [] else (splitOnChar d l).map String.mk

/-- Full parse of the file with the sniffed delimiter (`list(csv.reader(file))`). -/
def parseCsv (d : Char) (content : List Char) : List (List String) :=
  (csvLines content).map (rowOfLine d)

/-- A candidate delimiter is viable when every nonempty sample line contains it
the same positive number of times. -/
def sniffViable (lines : List (List Char)) (d : Char) : Bool :=
  match lines with
  | [] => false
  | l :: ls => 0 < l.count d && ls.all (fun l2 => l2.count d == l.count d)

/-- Modelled from the spec: the delimiter inference of `csv.Sniffer.sniff`
(standard library, not under `src/`).  Per the spec, the delimiter is chosen
from the candidate set comma, semicolon, tab, pipe as the one with the most
consistent per-line field count across the sample; empty sample lines are
ignored (as CPython's sniffer does).  When no candidate qualifies — in
particular on an empty sample — CPython raises
`csv.Error("Could not determine delimiter")`, modelled as the error case. -/
def sniffDelimiter (sample : List Char) : Except String Char :=
  let lines := (splitOnChar '\n' sample).filter (fun l => !l.isEmpty)
  match [',', ';', '\t', '|'].find? (sniffViable lines) with
  | some d => .ok d
  | none => .error "Could not determine delimiter"

/-- Column `i` of the data rows; a short row contributes an empty string. -/
def colValues (i : Nat) (dataRows : List (List String)) : List String :=
  dataRows.map (fun row => row.getD i "")

/-- The per-column record for column `i`. -/
def colStatsOf (i : Nat) (dataRows : List (List String)) : ColStats :=
  let vals := colValues i dataRows
  { non_empty_count := (vals.filter (fun v => !(stripWS v.data).isEmpty)).length
    unique_values := (dedupFirst vals).length
    sample_values := vals.take 3 }

/-- Python dict insertion: an existing key keeps its position and gets the new
value, a new key is appended. -/
def dictInsert (m : List (String × ColStats)) (k : String) (v : ColStats) :
    List (String × ColStats) :=
  match m with
  | [] => [(k, v)]
  | (k2, v2) :: rest => if k2 = k then (k, v) :: rest else (k2, v2) :: dictInsert rest k v

/-- The `for i, header in enumerate(headers)` loop building `column_analysis`. -/
def buildColsAux (dataRows : List (List String)) :
    Nat → List String → List (String × ColStats) → List (String × ColStats)
  | _, [], m => m
  | i, h :: hs, m => buildColsAux dataRows (i + 1) hs (dictInsert m h (colStatsOf i dataRows))

/-- `column_analysis` as a Python dict in insertion order. -/
def buildCols (headers : List String) (dataRows : List (List String)) :
    List (String × ColStats) :=
  buildColsAux dataRows 0 headers []

/-- Body of `DataAnalyzer.analyze_csv_file` inside its `try`. -/
def analyzeCsvBody (fs : FileSystem) (path : String) : Except String AnalysisResult :=
  match fs path with
  | none => .error (ioErrMsg path)
  | some bs =>
    match decodeUtf8 bs with
    | none => .error utf8ErrMsg
    | some content =>
      match sniffDelimiter (content.take 1024) with
      | .error e => .error e
      | .ok d =>
        match parseCsv d content with
        | [] => .ok (.err "CSV file is empty")
        | headers :: dataRows =>
          .ok (.csvData (dataRows.length + 1) dataRows.length headers.length headers
            (String.singleton d)
            (if !dataRows.isEmpty && !headers.isEmpty then buildCols headers dataRows else []))

/-- `DataAnalyzer.analyze_csv_file`. -/
def analyzeCsvFile (fs : FileSystem) (path : String) : AnalysisResult :=
  runCaught "Error analyzing CSV file: " (analyzeCsvBody fs path)

/-! ## DataAnalyzer: JSON

JSON values as parsed by `json.load` and re-serialized by `json.dumps`.
Mutual inductives (value, array, object) keep all recursion structural. -/

mutual
/-- A JSON value. -/
inductive JVal where
  | jstr (s : String)
  | jint (n : Int)
  | jnum (q : ℚ)
  | jbool (b : Bool)
  | jnull
  | jarr (xs : JArr)
  | jobj (fields : JObj)

/-- A JSON array. -/
inductive JArr where
  | nil
  | cons (hd : JVal) (tl : JArr)

/-- A JSON object, fields in document order. -/
inductive JObj where
  | nil
  | cons (key : String) (val : JVal) (tl : JObj)
end

/-- Skips JSON whitespace. -/
def skipJWs (cs : List Char) : List Char :=
  cs.dropWhile (fun c => c == ' ' || c == '\t' || c == '\n' || c == '\r')

/-- Scans a JSON string body up to the closing quote (escape sequences not
modelled; faithful for documents without them). -/
def parseJStrAux : List Char → Option (List Char × List Char)
  | [] => none
  | c :: cs =>
    if c = '"' then some ([], cs)
    else
      match parseJStrAux cs with
      | some (s, r) => some (c :: s, r)
      | none => none

/-- Digits of a natural number read most-significant first. -/
def natOfDigits (ds : List Char) : Nat :=
  ds.foldl (fun a c => a * 10 + (c.toNat - 48)) 0

mutual
/-- Modelled from the spec: `json.load` parsing (standard library, not under
`src/`), as a fuel-bounded recursive-descent parser for objects, arrays,
strings, numbers and literals; malformed syntax is a parse error. -/
def parseJson : Nat → List Char → Option (JVal × List Char)
  | 0, _ => none
  | fuel + 1, cs =>
    match skipJWs cs with
    | [] => none
    | c :: rest =>
      if c = '"' then
        match parseJStrAux rest with
        | some (s, r) => some (.jstr (String.mk s), r)
        | none => none
      else if c = 't' then
        if "rue".data.isPrefixOf rest then some (.jbool true, rest.drop 3) else none
      else if c = 'f' then
        if "alse".data.isPrefixOf rest then some (.jbool false, rest.drop 4) else none
      else if c = 'n' then
        if "ull".data.isPrefixOf rest then some (.jnull, rest.drop 3) else none
      else if c = '[' then
        match skipJWs rest with
        | ']' :: r => some (.jarr .nil, r)
        | r => match parseJArr fuel r with
          | some (xs, r2) => some (.jarr xs, r2)
          | none => none
      else if c = '\x7b' then
        match skipJWs rest with
        | '\x7d' :: r => some (.jobj .nil, r)
        | r => match parseJObj fuel r with
          | some (fields, r2) => some (.jobj fields, r2)
          | none => none
      else
        let (neg, cs2) := if c = '-' then (true, rest) else (false, c :: rest)
        match cs2.span Char.isDigit with
        | ([], _) => none
        | (ds, cs3) =>
          match cs3 with
          | '.' :: cs4 =>
            match cs4.span Char.isDigit with
            | ([], _) => none
            | (fds, cs5) =>
              let q : ℚ := (natOfDigits ds : ℚ) + (natOfDigits fds : ℚ) / ((10 : ℚ) ^ fds.length)
              some (.jnum (if neg then -q else q), cs5)
          | _ =>
            let n : Int := natOfDigits ds
            some (.jint (if neg then -n else n), cs3)

/-- Comma-separated array items (at least one). -/
def parseJArr : Nat → List Char → Option (JArr × List Char)
  | 0, _ => none
  | fuel + 1, cs =>
    match parseJson fuel cs with
    | none => none
    | some (v, r) =>
      match skipJWs r with
      | ',' :: r2 =>
        match parseJArr fuel r2 with
        | some (xs, r3) => some (.cons v xs, r3)
        | none => none
      | ']' :: r2 => some (.cons v .nil, r2)
      | _ => none

/-- Comma-separated object fields (at least one). -/
def parseJObj : Nat → List Char → Option (JObj × List Char)
  | 0, _ => none
  | fuel + 1, cs =>
    match skipJWs cs with
    | '"' :: r =>
      match parseJStrAux r with
      | none => none
      | some (k, r2) =>
        match skipJWs r2 with
        | ':' :: r3 =>
          match parseJson fuel r3 with
          | none => none
          | some (v, r4) =>
            match skipJWs r4 with
            | ',' :: r5 =>
              match parseJObj fuel r5 with
              | some (fields, r6) => some (.cons (String.mk k) v fields, r6)
              | none => none
            | '\x7d' :: r5 => some (.cons (String.mk k) v .nil, r5)
            | _ => none
        | _ => none
    | _ => none
end

/-- `json.load` over the whole document. -/
def jsonLoad (cs : List Char) : Except String JVal :=
  match parseJson (cs.length + 1) cs with
  | some (v, rest) => if (skipJWs rest).isEmpty then .ok v else .error "Extra data"
  | none => .error "Expecting value"

/-- Decimal rendering of the rationals the pipeline produces (two fractional
digits after `round2`; rendering of other rationals is a deterministic
approximation of Python's float repr). -/
def qRepr (q : ℚ) : String :=
  let sign := if q < 0 then "-" else ""
  let a := |q|
  let ip := ⌊a⌋.toNat
  let cents := roundHalfEven ((a - ip) * 100) |>.toNat
  sign ++ toString ip ++ "." ++ (if cents < 10 then "0" else "") ++ toString cents

mutual
/-- Model of compact `json.dumps` (default separators), used for
`estimated_size`.  String escaping is not modelled. -/
def jdump : JVal → String
  | .jstr s => "\"" ++ s ++ "\""
  | .jint n => toString n
  | .jnum q => qRepr q
  | .jbool b => if b then "true" else "false"
  | .jnull => "null"
  | .jarr xs => "[" ++ jdumpArr xs ++ "]"
  | .jobj fields => "\x7b" ++ jdumpObj fields ++ "\x7d"

/-- Array items joined by `", "`. -/
def jdumpArr : JArr → String
  | .nil => ""
  | .cons x .nil => jdump x
  | .cons x tl => jdump x ++ ", " ++ jdumpArr tl

/-- Object fields joined by `", "`, keys quoted, `": "` before values. -/
def jdumpObj : JObj → String
  | .nil => ""
  | .cons k v .nil => "\"" ++ k ++ "\": " ++ jdump v
  | .cons k v tl => "\"" ++ k ++ "\": " ++ jdump v ++ ", " ++ jdumpObj tl
end

/-- Python `type(obj).__name__` for parsed JSON values. -/
def typeNameOf : JVal → String
  | .jobj _ => "dict"
  | .jarr _ => "list"
  | .jstr _ => "str"
  | .jint _ => "int"
  | .jnum _ => "float"
  | .jbool _ => "bool"
  | .jnull => "NoneType"

/-- A `JArr` as a list of values. -/
def jarrToList : JArr → List JVal
  | .nil => []
  | .cons x tl => x :: jarrToList tl

/-- Keys of a `JObj` in document order. -/
def jobjKeys : JObj → List String
  | .nil => []
  | .cons k _ tl => k :: jobjKeys tl

/-- `analyze_json_structure` at the root (`depth` is always 0).  The source's
`list(set(...))` over the sampled item types is modelled as first-occurrence
deduplication (CPython set order is unspecified). -/
def classifyRoot : JVal → JStruct
  | .jobj fields => .obj (jobjKeys fields).length ((jobjKeys fields).take 10)
  | .jarr xs => .arr (jarrToList xs).length
      (dedupFirst (((jarrToList xs).take 10).map typeNameOf))
  | v => .scalar (typeNameOf v)

/-- Body of `DataAnalyzer.analyze_json_file` inside its `try`. -/
def analyzeJsonBody (fs : FileSystem) (path : String) : Except String AnalysisResult :=
  match fs path with
  | none => .error (ioErrMsg path)
  | some bs =>
    match decodeUtf8 bs with
    | none => .error utf8ErrMsg
    | some content =>
      match jsonLoad content with
      | .error e => .error e
      | .ok data => .ok (.jsonData (classifyRoot data) (jdump data).length)

/-- `DataAnalyzer.analyze_json_file`. -/
def analyzeJsonFile (fs : FileSystem) (path : String) : AnalysisResult :=
  runCaught "Error analyzing JSON file: " (analyzeJsonBody fs path)

/-! ## ContentAnalyzer dispatch -/

/-- Index of the last occurrence of `c`. -/
def lastIndexOf (cs : List Char) (c : Char) : Option Nat :=
  match cs.reverse.findIdx? (· == c) with
  | some i => some (cs.length - 1 - i)
  | none => none

/-- Model of `os.path.splitext(path)[1]` (POSIX): the suffix from the last dot
of the basename, unless only dots precede it there. -/
def splitextExt (path : String) : String :=
  let p := path.data
  let sepIdx : Int := match lastIndexOf p '/' with | some i => (i : Int) | none => -1
  let dotIdx : Int := match lastIndexOf p '.' with | some i => (i : Int) | none => -1
  if sepIdx < dotIdx then
    let fnameStart := (sepIdx + 1).toNat
    if ((p.drop fnameStart).take (dotIdx.toNat - fnameStart)).any (fun c => !(c == '.')) then
      String.mk (p.drop dotIdx.toNat)
    else ""
  else ""

/-- Model of `str.lower` on ASCII strings. -/
def pyLowerStr (s : String) : String :=
  String.mk (s.data.map pyLowerChar)

/-- Model of `str.upper` on an ASCII character. -/
def pyUpperChar (c : Char) : Char :=
  if 'a' ≤ c ∧ c ≤ 'z' then Char.ofNat (c.toNat - 32) else c

/-- Helper for `titleStr`: tracks whether the previous character was a letter. -/
def titleAux (prevAlpha : Bool) : List Char → List Char
  | [] => []
  | c :: cs =>
    (if isAsciiLetter c then (if prevAlpha then pyLowerChar c else pyUpperChar c) else c)
      :: titleAux (isAsciiLetter c) cs

/-- Model of Python `str.title()` on ASCII strings. -/
def titleStr (s : String) : String :=
  String.mk (titleAux false s.data)

/-- `ContentAnalyzer.analyze_content`: the dispatch over type category and
lower-cased extension. -/
def analyzeContent (fs : FileSystem) (filePath : String) (fileType : String) : AnalysisResult :=
  if fileType = "text" then
    if pyLowerStr (splitextExt filePath) = ".py" then analyzePythonFile fs filePath
    else if pyLowerStr (splitextExt filePath) = ".csv" then analyzeCsvFile fs filePath
    else if pyLowerStr (splitextExt filePath) = ".json" then analyzeJsonFile fs filePath
    else analyzeTextFile fs filePath
  else if fileType = "image" ∨ fileType = "document" ∨ fileType = "archive" then
    .unsupported (titleStr fileType)
      ("Binary " ++ fileType ++ " file - content analysis not available")
      (some "Use specialized tools for detailed analysis of this file type")
  else
    .unsupported "Unknown" "File type not supported for content analysis" none

/-- The same dispatch with the sub-analyzers' `try` bodies left uncaught:
an `Except.error` here is an exception a sub-analyzer would raise internally. -/
def analyzeContentRaw (fs : FileSystem) (filePath : String) (fileType : String) :
    Except String AnalysisResult :=
  if fileType = "text" then
    if pyLowerStr (splitextExt filePath) = ".py" then analyzePythonBody fs filePath
    else if pyLowerStr (splitextExt filePath) = ".csv" then analyzeCsvBody fs filePath
    else if pyLowerStr (splitextExt filePath) = ".json" then analyzeJsonBody fs filePath
    else analyzeTextFileBody fs filePath
  else if fileType = "image" ∨ fileType = "document" ∨ fileType = "archive" then
    .ok (.unsupported (titleStr fileType)
      ("Binary " ++ fileType ++ " file - content analysis not available")
      (some "Use specialized tools for detailed analysis of this file type"))
  else
    .ok (.unsupported "Unknown" "File type not supported for content analysis" none)

/-! ## ReportGenerator

The renderers are pure functions of `(file_info, content_analysis)` plus the
clock value (`datetime.now()`), made an explicit argument `now` (POSIX seconds
as an exact rational).  `datetime.fromtimestamp` is rendered in UTC. -/

/-- The `file_info` record produced by `FileHelper.get_file_info`, an input to
every renderer. -/
structure FileInfo where
  name : String
  path : String
  size : Nat
  size_formatted : String
  extension : String
  type : String
  mime_type : String
  modified_time : ℚ
  created_time : ℚ
deriving DecidableEq, Repr

/-- Two-digit zero padding. -/
def pad2 (n : Nat) : String :=
  if n < 10 then "0" ++ toString n else toString n

/-- Thousands separators of Python's format spec `,` — helper over reversed
digits, `i` the 0-based position from the least significant digit. -/
def withCommasRev : Nat → List Char → List Char
  | _, [] => []
  | _, [c] => [c]
  | i, c :: cs =>
    if (i + 1) % 3 = 0 then c :: ',' :: withCommasRev (i + 1) cs
    else c :: withCommasRev (i + 1) cs

/-- Model of the f-string format `:,` on a nonnegative integer. -/
def commaFmt (n : Nat) : String :=
  String.mk ((withCommasRev 0 (toString n).data.reverse).reverse)

/-- Civil date from days since the Unix epoch (proleptic Gregorian). -/
def civilFromDays (z0 : Int) : Int × Nat × Nat :=
  let z := z0 + 719468
  let era := Int.fdiv z 146097
  let doe := (z - era * 146097).toNat
  let yoe := (doe - doe / 1460 + doe / 36524 - doe / 146096) / 365
  let y := (yoe : Int) + era * 400
  let doy := doe - (365 * yoe + yoe / 4 - yoe / 100)
  let mp := (5 * doy + 2) / 153
  let d := doy - (153 * mp + 2) / 5 + 1
  let m := if mp < 10 then mp + 3 else mp - 9
  (if m ≤ 2 then y + 1 else y, m, d)

/-- Model of `datetime.fromtimestamp(t).strftime("%Y-%m-%d %H:%M:%S")`
(rendered in UTC; fractional seconds are dropped by the format). -/
def fmtTimestamp (t : ℚ) : String :=
  let secs := ⌊t⌋
  let days := Int.fdiv secs 86400
  let sod := (secs - days * 86400).toNat
  let ymd := civilFromDays days
  toString ymd.1 ++ "-" ++ pad2 ymd.2.1 ++ "-" ++ pad2 ymd.2.2 ++ " " ++
    pad2 (sod / 3600) ++ ":" ++ pad2 (sod % 3600 / 60) ++ ":" ++ pad2 (sod % 60)

/-- Model of `datetime.now().isoformat()` to whole seconds. -/
def isoTimestamp (t : ℚ) : String :=
  let secs := ⌊t⌋
  let days := Int.fdiv secs 86400
  let sod := (secs - days * 86400).toNat
  let ymd := civilFromDays days
  toString ymd.1 ++ "-" ++ pad2 ymd.2.1 ++ "-" ++ pad2 ymd.2.2 ++ "T" ++
    pad2 (sod / 3600) ++ ":" ++ pad2 (sod % 3600 / 60) ++ ":" ++ pad2 (sod % 60)

/-- Model of the f-string format `:.1f` on a nonnegative rational. -/
def fmt1 (q : ℚ) : String :=
  let t := (roundHalfEven (|q| * 10)).toNat
  (if q < 0 then "-" else "") ++ toString (t / 10) ++ "." ++ toString (t % 10)

/-- A string of `n` copies of `c` (Python `c * n`). -/
def repeatChar (c : Char) (n : Nat) : String :=
  String.mk (List.replicate n c)

/-- An apostrophe (kept out of source literals). -/
def sq : String := String.singleton (Char.ofNat 39)

/-- The `type` value stored in `analyze_json_structure`'s record. -/
def structTypeName : JStruct → String
  | .obj _ _ => "object"
  | .arr _ _ => "array"
  | .scalar t => t

/-- Lines `_add_python_analysis` appends. -/
def pythonAnalysisLines (imports functions classes comments docstrings complexity
    totalLines blankLines : Nat) : List String :=
  ["Language: Python",
   "Total Lines: " ++ toString totalLines,
   "Blank Lines: " ++ toString blankLines,
   "Code Lines: " ++ toString (totalLines - blankLines),
   "Imports: " ++ toString imports,
   "Functions: " ++ toString functions,
   "Classes: " ++ toString classes,
   "Comments: " ++ toString comments,
   "Docstrings: " ++ toString docstrings,
   "Estimated Complexity: " ++ toString complexity] ++
  (if 0 < totalLines then
    ["Comment Ratio: " ++ fmt1 ((comments : ℚ) / (totalLines : ℚ) * 100) ++ "%"]
  else [])

/-- Lines `_add_csv_analysis` appends. -/
def csvAnalysisLines (totalRows dataRows columns : Nat) (headers : List String)
    (delimiter : String) (colA : List (String × ColStats)) : List String :=
  ["Format: CSV (Delimiter: " ++ sq ++ delimiter ++ sq ++ ")",
   "Total Rows: " ++ toString totalRows,
   "Data Rows: " ++ toString dataRows,
   "Columns: " ++ toString columns] ++
  (if headers.isEmpty then []
   else
    ["Headers: " ++ String.intercalate ", " (headers.take 5)] ++
    (if 5 < headers.length then
      ["  ... and " ++ toString (headers.length - 5) ++ " more"]
    else [])) ++
  (if colA.isEmpty then []
   else
    ["", "Column Details:"] ++
    (colA.take 3).map (fun p =>
      "  " ++ p.1 ++ ": " ++ toString p.2.non_empty_count ++ " filled, " ++
        toString p.2.unique_values ++ " unique values"))

/-- Lines `_add_json_analysis` appends. -/
def jsonAnalysisLines (struct : JStruct) (estimatedSize : Nat) : List String :=
  ["Format: JSON", "Root Type: " ++ structTypeName struct] ++
  (match struct with
   | .obj keys names =>
     ["Keys: " ++ toString keys] ++
     (if names.isEmpty then [] else ["Key Names: " ++ String.intercalate ", " (names.take 5)])
   | .arr len types =>
     ["Array Length: " ++ toString len, "Item Types: " ++ String.intercalate ", " types]
   | .scalar _ => []) ++
  ["Estimated Size: " ++ commaFmt estimatedSize ++ " characters"]

/-- Lines `_add_text_analysis` appends. -/
def textAnalysisLines (totalLines totalWords totalChars charsNoSpaces : Nat)
    (avg : ℚ) (commons : List (String × Nat)) (enc : String) : List String :=
  ["Encoding: " ++ enc,
   "Lines: " ++ commaFmt totalLines,
   "Words: " ++ commaFmt totalWords,
   "Characters: " ++ commaFmt totalChars,
   "Characters (no spaces): " ++ commaFmt charsNoSpaces,
   "Average words per line: " ++ qRepr avg] ++
  (if commons.isEmpty then []
   else
    ["", "Most Common Words:"] ++
    commons.map (fun p => "  " ++ p.1 ++ ": " ++ toString p.2 ++ " times"))

/-- Lines `_add_generic_analysis` appends. -/
def genericAnalysisLines (message : String) (suggestion : Option String) : List String :=
  (if message.isEmpty then [] else [message]) ++
  (match suggestion with
   | some s => if s.isEmpty then [] else ["Suggestion: " ++ s]
   | none => [])

/-- The content block of the detailed report, chosen by the same chain of
checks as `generate_summary_report` (`type` tag, then presence of
`total_words`, then the generic fallback). -/
def contentBlock : AnalysisResult → List String
  | .pythonCode i f c cm ds cx tl bl =>
    ["📊 CONTENT ANALYSIS", repeatChar '-' 30] ++ pythonAnalysisLines i f c cm ds cx tl bl
  | .csvData tr dr cols hs d colA =>
    ["📊 CONTENT ANALYSIS", repeatChar '-' 30] ++ csvAnalysisLines tr dr cols hs d colA
  | .jsonData st est =>
    ["📊 CONTENT ANALYSIS", repeatChar '-' 30] ++ jsonAnalysisLines st est
  | .textStats tl tw tc cns avg cw enc =>
    ["📊 CONTENT ANALYSIS", repeatChar '-' 30] ++ textAnalysisLines tl tw tc cns avg cw enc
  | .unsupported _ m sugg =>
    ["📊 CONTENT ANALYSIS", repeatChar '-' 30] ++ genericAnalysisLines m sugg
  | .err m =>
    ["❌ CONTENT ANALYSIS ERROR", repeatChar '-' 30, "Error: " ++ m]

/-- `ReportGenerator.generate_summary_report`, with the clock explicit. -/
def generateSummaryReport (fi : FileInfo) (ca : AnalysisResult) (now : ℚ) : String :=
  String.intercalate "\n"
    ([repeatChar '=' 60,
      "FILE ANALYSIS REPORT",
      repeatChar '=' 60,
      "Generated on: " ++ fmtTimestamp now,
      "",
      "📁 FILE INFORMATION",
      repeatChar '-' 30,
      "Name: " ++ fi.name,
      "Path: " ++ fi.path,
      "Size: " ++ fi.size_formatted ++ " (" ++ commaFmt fi.size ++ " bytes)",
      "Type: " ++ titleStr fi.type,
      "Extension: " ++ fi.extension,
      "MIME Type: " ++ fi.mime_type,
      "Modified: " ++ fmtTimestamp fi.modified_time,
      "Created: " ++ fmtTimestamp fi.created_time,
      ""] ++
     contentBlock ca ++
     ["", repeatChar '=' 60])

/-- `ReportGenerator.generate_quick_summary`.  The text clause is guarded by
the truthiness of `content_analysis.get("total_words")`, so a zero word count
falls through to the generic clause. -/
def generateQuickSummary (fi : FileInfo) (ca : AnalysisResult) : String :=
  let base := fi.name ++ " (" ++ fi.size_formatted ++ ") - "
  match ca with
  | .pythonCode _ f c _ _ _ _ _ =>
    base ++ "Python file with " ++ toString f ++ " functions, " ++ toString c ++ " classes"
  | .textStats tl tw _ _ _ _ _ =>
    if tw ≠ 0 then
      base ++ "Text file with " ++ toString tw ++ " words, " ++ toString tl ++ " lines"
    else base ++ titleStr fi.type ++ " file"
  | .csvData _ dr cols _ _ _ =>
    base ++ "CSV with " ++ toString dr ++ " rows, " ++ toString cols ++ " columns"
  | _ => base ++ titleStr fi.type ++ " file"

/-! ## Serialization (generate_json_report)

Python values as `json.dumps` sees them: tuples serialize as JSON arrays, so
`json.loads` returns them as lists.  Mutual inductives keep recursion
structural. -/

mutual
/-- A Python value that can appear in the serialized document. -/
inductive PyVal where
  | pstr (s : String)
  | pint (n : Int)
  | pfloat (q : ℚ)
  | pbool (b : Bool)
  | pnone
  | plist (xs : PyList)
  | ptuple (xs : PyList)
  | pdict (fields : PyDict)

/-- Elements of a Python list or tuple. -/
inductive PyList where
  | nil
  | cons (hd : PyVal) (tl : PyList)

/-- A Python dict with string keys, fields in insertion order. -/
inductive PyDict where
  | nil
  | cons (key : String) (val : PyVal) (tl : PyDict)
end

mutual
/-- Model of `json.dumps`'s value translation: lists and tuples both become
JSON arrays. -/
def pyToJ : PyVal → JVal
  | .pstr s => .jstr s
  | .pint n => .jint n
  | .pfloat q => .jnum q
  | .pbool b => .jbool b
  | .pnone => .jnull
  | .plist xs => .jarr (pyToJList xs)
  | .ptuple xs => .jarr (pyToJList xs)
  | .pdict fields => .jobj (pyToJDict fields)

/-- Sequence elements under `json.dumps`. -/
def pyToJList : PyList → JArr
  | .nil => .nil
  | .cons x xs => .cons (pyToJ x) (pyToJList xs)

/-- Dict fields under `json.dumps`. -/
def pyToJDict : PyDict → JObj
  | .nil => .nil
  | .cons k v fields => .cons k (pyToJ v) (pyToJDict fields)
end

mutual
/-- Model of `json.loads`'s value translation: every JSON array becomes a
Python list. -/
def jToPy : JVal → PyVal
  | .jstr s => .pstr s
  | .jint n => .pint n
  | .jnum q => .pfloat q
  | .jbool b => .pbool b
  | .jnull => .pnone
  | .jarr xs => .plist (jToPyArr xs)
  | .jobj fields => .pdict (jToPyObj fields)

/-- Array elements under `json.loads`. -/
def jToPyArr : JArr → PyList
  | .nil => .nil
  | .cons x xs => .cons (jToPy x) (jToPyArr xs)

/-- Object fields under `json.loads`. -/
def jToPyObj : JObj → PyDict
  | .nil => .nil
  | .cons k v fields => .cons k (jToPy v) (jToPyObj fields)
end

mutual
/-- Replaces every tuple by the list with the same elements — the only change
a dumps/loads round trip makes to these values. -/
def detuple : PyVal → PyVal
  | .pstr s => .pstr s
  | .pint n => .pint n
  | .pfloat q => .pfloat q
  | .pbool b => .pbool b
  | .pnone => .pnone
  | .plist xs => .plist (detupleList xs)
  | .ptuple xs => .plist (detupleList xs)
  | .pdict fields => .pdict (detupleDict fields)

/-- `detuple` over sequence elements. -/
def detupleList : PyList → PyList
  | .nil => .nil
  | .cons x xs => .cons (detuple x) (detupleList xs)

/-- `detuple` over dict fields. -/
def detupleDict : PyDict → PyDict
  | .nil => .nil
  | .cons k v fields => .cons k (detuple v) (detupleDict fields)
end

/-- A Python list of strings. -/
def pyStrList : List String → PyList
  | [] => .nil
  | s :: ss => .cons (.pstr s) (pyStrList ss)

/-- The `common_words` value: a list of `(word, count)` tuples. -/
def pyCwList : List (String × Nat) → PyList
  | [] => .nil
  | p :: ps => .cons (.ptuple (.cons (.pstr p.1) (.cons (.pint p.2) .nil))) (pyCwList ps)

/-- One per-column record as a Python dict. -/
def pyColStats (c : ColStats) : PyVal :=
  .pdict (.cons "non_empty_count" (.pint c.non_empty_count)
    (.cons "unique_values" (.pint c.unique_values)
      (.cons "sample_values" (.plist (pyStrList c.sample_values)) .nil)))

/-- The `column_analysis` dict. -/
def pyColsDict : List (String × ColStats) → PyDict
  | [] => .nil
  | p :: ps => .cons p.1 (pyColStats p.2) (pyColsDict ps)

/-- The `structure` record of a JSON analysis (`max_depth` is always 0). -/
def structPy : JStruct → PyVal
  | .obj keys names =>
    .pdict (.cons "type" (.pstr "object") (.cons "keys" (.pint keys)
      (.cons "key_names" (.plist (pyStrList names)) (.cons "max_depth" (.pint 0) .nil))))
  | .arr len types =>
    .pdict (.cons "type" (.pstr "array") (.cons "length" (.pint len)
      (.cons "item_types" (.plist (pyStrList types)) (.cons "max_depth" (.pint 0) .nil))))
  | .scalar t =>
    .pdict (.cons "type" (.pstr t) (.cons "max_depth" (.pint 0) .nil))

/-- The `content_analysis` dict, keys exactly as the source's dict literals. -/
def caPy : AnalysisResult → PyVal
  | .textStats tl tw tc cns avg cw enc =>
    .pdict (.cons "total_lines" (.pint tl) (.cons "total_words" (.pint tw)
      (.cons "total_characters" (.pint tc) (.cons "characters_no_spaces" (.pint cns)
        (.cons "average_words_per_line" (.pfloat avg)
          (.cons "common_words" (.plist (pyCwList cw))
            (.cons "encoding_used" (.pstr enc) .nil)))))))
  | .pythonCode i f c cm ds cx tl bl =>
    .pdict (.cons "type" (.pstr "Python Code") (.cons "imports" (.pint i)
      (.cons "functions" (.pint f) (.cons "classes" (.pint c)
        (.cons "comments" (.pint cm) (.cons "docstrings" (.pint ds)
          (.cons "estimated_complexity" (.pint cx) (.cons "total_lines" (.pint tl)
            (.cons "blank_lines" (.pint bl) .nil)))))))))
  | .csvData tr dr cols hs d colA =>
    .pdict (.cons "type" (.pstr "CSV Data") (.cons "total_rows" (.pint tr)
      (.cons "data_rows" (.pint dr) (.cons "columns" (.pint cols)
        (.cons "headers" (.plist (pyStrList hs)) (.cons "delimiter" (.pstr d)
          (.cons "column_analysis" (.pdict (pyColsDict colA)) .nil)))))))
  | .jsonData st est =>
    .pdict (.cons "type" (.pstr "JSON Data") (.cons "structure" (structPy st)
      (.cons "estimated_size" (.pint est) .nil)))
  | .unsupported t m sugg =>
    .pdict (.cons "type" (.pstr t) (.cons "message" (.pstr m)
      (match sugg with
       | some s => .cons "suggestion" (.pstr s) .nil
       | none => .nil)))
  | .err m => .pdict (.cons "error" (.pstr m) .nil)

/-- The `file_info` dict, keys in `get_file_info`'s order. -/
def fiPy (fi : FileInfo) : PyVal :=
  .pdict (.cons "name" (.pstr fi.name) (.cons "path" (.pstr fi.path)
    (.cons "size" (.pint fi.size) (.cons "size_formatted" (.pstr fi.size_formatted)
      (.cons "extension" (.pstr fi.extension) (.cons "type" (.pstr fi.type)
        (.cons "mime_type" (.pstr fi.mime_type)
          (.cons "modified_time" (.pfloat fi.modified_time)
            (.cons "created_time" (.pfloat fi.created_time) .nil)))))))))

/-- The serialized document of `generate_json_report`: timestamp, file_info,
content_analysis, in that order. -/
def docPy (ts : String) (fi : FileInfo) (ca : AnalysisResult) : PyVal :=
  .pdict (.cons "timestamp" (.pstr ts)
    (.cons "file_info" (fiPy fi)
      (.cons "content_analysis" (caPy ca) .nil)))

mutual
/-- Model of `json.dumps(..., indent=2)`; `ind` is the current indent width. -/
def jdumpI (ind : Nat) : JVal → String
  | .jarr .nil => "[]"
  | .jobj .nil => "\x7b\x7d"
  | .jarr xs =>
    "[\n" ++ jdumpArrI (ind + 2) xs ++ "\n" ++ repeatChar ' ' ind ++ "]"
  | .jobj fields =>
    "\x7b\n" ++ jdumpObjI (ind + 2) fields ++ "\n" ++ repeatChar ' ' ind ++ "\x7d"
  | v => jdump v

/-- Indented array items, one per line. -/
def jdumpArrI (ind : Nat) : JArr → String
  | .nil => ""
  | .cons x .nil => repeatChar ' ' ind ++ jdumpI ind x
  | .cons x tl => repeatChar ' ' ind ++ jdumpI ind x ++ ",\n" ++ jdumpArrI ind tl

/-- Indented object fields, one per line. -/
def jdumpObjI (ind : Nat) : JObj → String
  | .nil => ""
  | .cons k v .nil => repeatChar ' ' ind ++ "\"" ++ k ++ "\": " ++ jdumpI ind v
  | .cons k v tl =>
    repeatChar ' ' ind ++ "\"" ++ k ++ "\": " ++ jdumpI ind v ++ ",\n" ++ jdumpObjI ind tl
end

/-- `ReportGenerator.generate_json_report`, with the clock explicit. -/
def generateJsonReport (fi : FileInfo) (ca : AnalysisResult) (now : ℚ) : String :=
  jdumpI 0 (pyToJ (docPy (isoTimestamp now) fi ca))

/-! ## Auxiliary definitions for the statements -/

/-- The encoding selection the specification describes: the first of utf-8,
utf-16, ascii, latin-1 that decodes the bytes.  Total, because latin-1 decodes
every byte sequence. -/
def firstDecodeSpec (bs : List Nat) : String × List Char :=
  match decodeUtf8 bs with
  | some c => ("utf-8", c)
  | none =>
    match decodeUtf16 bs with
    | some c => ("utf-16", c)
    | none =>
      match decodeAscii bs with
      | some c => ("ascii", c)
      | none => ("latin-1", bs.map Char.ofNat)

/-- The message text the dispatched sub-analyzer's `except` clause prepends to
an internal exception (empty for the non-text branches, which cannot raise). -/
def catchPrefix (filePath fileType : String) : String :=
  if fileType = "text" then
    if pyLowerStr (splitextExt filePath) = ".py" then "Error analyzing Python file: "
    else if pyLowerStr (splitextExt filePath) = ".csv" then "Error analyzing CSV file: "
    else if pyLowerStr (splitextExt filePath) = ".json" then "Error analyzing JSON file: "
    else "Error analyzing text file: "
  else ""

/-- The delimiter the CSV analyzer sniffs for a path (a projection used in
statements; the default `,` is returned on paths where no sniff happens). -/
def sniffedOf (fs : FileSystem) (p : String) : Char :=
  match fs p with
  | none => ','
  | some bs =>
    match decodeUtf8 bs with
    | none => ','
    | some content =>
      match sniffDelimiter (content.take 1024) with
      | .ok d => d
      | .error _ => ','

/-- Whether a result carries no `common_words` tuples (every variant except a
text result with a nonempty `common_words` list). -/
def cwEmpty : AnalysisResult → Bool
  | .textStats _ _ _ _ _ cw _ => cw.isEmpty
  | _ => true

/-- A fixed metadata record used by concrete instances. -/
def fiZero : FileInfo :=
  { name := "x.txt", path := "/tmp/x.txt", size := 0, size_formatted := "0 B",
    extension := ".txt", type := "text", mime_type := "text/plain",
    modified_time := 0, created_time := 0 }

/-- A text result whose `common_words` holds one `(word, count)` tuple. -/
def caTuple : AnalysisResult :=
  .textStats 1 2 7 6 2 [("the", 2)] "utf-8"

/-! # Theorems -/

/-! ## Shared lemmas about the exception wrapper -/

/-- An uncaught success passes through the `except` wrapper unchanged, and an
exception becomes the prefixed error record. -/
theorem runCaught_spec (pre : String) (x : Except String AnalysisResult) :
    (∀ r, x = .ok r → runCaught pre x = r) ∧
    (∀ e, x = .error e → runCaught pre x = .err (pre ++ e)) := by
  constructor <;> intro a h <;> rw [h] <;> rfl

/-! ## C8: the renderers are deterministic functions of their inputs -/

/-- C8: rendering a fixed triple (metadata, result, render timestamp) twice
gives byte-identical strings in all three formats: with the clock an explicit
input, each renderer is a pure function, so equal inputs give equal outputs. -/
theorem renderers_deterministic (fi fi2 : FileInfo) (ca ca2 : AnalysisResult) (now now2 : ℚ)
    (h1 : fi = fi2) (h2 : ca = ca2) (h3 : now = now2) :
    generateSummaryReport fi ca now = generateSummaryReport fi2 ca2 now2 ∧
    generateQuickSummary fi ca = generateQuickSummary fi2 ca2 ∧
    generateJsonReport fi ca now = generateJsonReport fi2 ca2 now2 := by
  subst h1; subst h2; subst h3
  exact ⟨rfl, rfl, rfl⟩

/-- Witness for C8 at a concrete metadata record, result and timestamp. -/
theorem renderers_deterministic_witness :
    generateSummaryReport fiZero caTuple 0 = generateSummaryReport fiZero caTuple 0 ∧
    generateQuickSummary fiZero caTuple = generateQuickSummary fiZero caTuple ∧
    generateJsonReport fiZero caTuple 0 = generateJsonReport fiZero caTuple 0 :=
  renderers_deterministic fiZero fiZero caTuple caTuple 0 0 rfl rfl rfl

/-! ## C2: the dispatch decision table -/

/-- C2 counterexample: for the non-text categories the message is not the
claimed literal `"binary content analysis not available"` — the `unknown`
category gets `"File type not supported for content analysis"` (with category
tag `Unknown`), and the binary categories get
`"Binary <category> file - content analysis not available"`. -/
theorem analyzeContent_unknown_counterexample :
    analyzeContent (fun _ => none) "a.bin" "unknown" =
      .unsupported "Unknown" "File type not supported for content analysis" none ∧
    decide ("File type not supported for content analysis" =
      "binary content analysis not available") = false ∧
    analyzeContent (fun _ => none) "a.jpg" "image" =
      .unsupported "Image" "Binary image file - content analysis not available"
        (some "Use specialized tools for detailed analysis of this file type") ∧
    decide ("Binary image file - content analysis not available" =
      "binary content analysis not available") = false := by
  refine ⟨by decide, by decide, by decide, by decide⟩

/-- C2 amended: the decision table as implemented.  Text files dispatch by
lower-cased extension exactly as claimed; the categories image, document and
archive return `Unsupported` with the category-specific binary message (plus a
suggestion field); every remaining category returns `Unsupported` with tag
`Unknown` and the not-supported message. -/
theorem analyzeContent_dispatch_amended (fs : FileSystem) (p ft : String) :
    (ft = "text" → pyLowerStr (splitextExt p) = ".py" →
      analyzeContent fs p ft = analyzePythonFile fs p) ∧
    (ft = "text" → pyLowerStr (splitextExt p) = ".csv" →
      analyzeContent fs p ft = analyzeCsvFile fs p) ∧
    (ft = "text" → pyLowerStr (splitextExt p) = ".json" →
      analyzeContent fs p ft = analyzeJsonFile fs p) ∧
    (ft = "text" → pyLowerStr (splitextExt p) ≠ ".py" →
      pyLowerStr (splitextExt p) ≠ ".csv" → pyLowerStr (splitextExt p) ≠ ".json" →
      analyzeContent fs p ft = analyzeTextFile fs p) ∧
    (ft = "image" ∨ ft = "document" ∨ ft = "archive" →
      analyzeContent fs p ft = .unsupported (titleStr ft)
        ("Binary " ++ ft ++ " file - content analysis not available")
        (some "Use specialized tools for detailed analysis of this file type")) ∧
    (ft ≠ "text" → ft ≠ "image" → ft ≠ "document" → ft ≠ "archive" →
      analyzeContent fs p ft = .unsupported "Unknown"
        "File type not supported for content analysis" none) := by
  refine ⟨?_, ?_, ?_, ?_, ?_, ?_⟩
  · intro h1 h2
    simp [analyzeContent, h1, h2]
  · intro h1 h2
    have hne : pyLowerStr (splitextExt p) ≠ ".py" := by rw [h2]; decide
    simp [analyzeContent, h1, h2, hne]
  · intro h1 h2
    have hne : pyLowerStr (splitextExt p) ≠ ".py" := by rw [h2]; decide
    have hne2 : pyLowerStr (splitextExt p) ≠ ".csv" := by rw [h2]; decide
    simp [analyzeContent, h1, h2, hne, hne2]
  · intro h1 h2 h3 h4
    simp [analyzeContent, h1, h2, h3, h4]
  · intro h
    rcases h with h | h | h <;> subst h <;> simp [analyzeContent]
  · intro h1 h2 h3 h4
    simp [analyzeContent, h1, h2, h3, h4]

/-- Witness for C2 at concrete inputs: the image branch and the `.PY`
extension dispatch. -/
theorem analyzeContent_dispatch_amended_witness :
    analyzeContent (fun _ => none) "pic.jpg" "image" =
      .unsupported (titleStr "image")
        ("Binary " ++ "image" ++ " file - content analysis not available")
        (some "Use specialized tools for detailed analysis of this file type") ∧
    analyzeContent (fun _ => none) "mod.PY" "text" =
      analyzePythonFile (fun _ => none) "mod.PY" :=
  ⟨(analyzeContent_dispatch_amended (fun _ => none) "pic.jpg" "image").2.2.2.2.1 (Or.inl rfl),
   (analyzeContent_dispatch_amended (fun _ => none) "mod.PY" "text").1 rfl (by decide)⟩

/-! ## C6: the quick summary clauses -/

/-- C6 counterexample: a text result with zero words does not render the
claimed `"Text file with 0 words, 1 lines"` clause — the truthiness test on
`total_words` fails and the generic category clause is used instead. -/
theorem quickSummary_zeroWords_counterexample :
    generateQuickSummary fiZero (.textStats 1 0 0 0 0 [] "utf-8") =
      "x.txt (0 B) - Text file" ∧
    decide (generateQuickSummary fiZero (.textStats 1 0 0 0 0 [] "utf-8") =
      "x.txt (0 B) - Text file with 0 words, 1 lines") = false := by
  refine ⟨by decide, by decide⟩

/-- C6 amended: the quick summary is the one line
`"<name> (<human size>) - <clause>"` where a code result gives the
functions/classes clause, a text result with a positive word count gives the
words/lines clause, a text result with zero words falls through to the generic
`"<TitleCase category> file"` clause, a tabular result gives the rows/columns
clause, and every other variant gives the generic clause. -/
theorem quickSummary_clauses_amended :
    (∀ (fi : FileInfo) i f c cm ds cx tl bl,
      generateQuickSummary fi (.pythonCode i f c cm ds cx tl bl) =
        fi.name ++ " (" ++ fi.size_formatted ++ ") - " ++ "Python file with " ++
          toString f ++ " functions, " ++ toString c ++ " classes") ∧
    (∀ (fi : FileInfo) tl tw tc cns avg cw enc, 0 < tw →
      generateQuickSummary fi (.textStats tl tw tc cns avg cw enc) =
        fi.name ++ " (" ++ fi.size_formatted ++ ") - " ++ "Text file with " ++
          toString tw ++ " words, " ++ toString tl ++ " lines") ∧
    (∀ (fi : FileInfo) tl tc cns avg cw enc,
      generateQuickSummary fi (.textStats tl 0 tc cns avg cw enc) =
        fi.name ++ " (" ++ fi.size_formatted ++ ") - " ++ titleStr fi.type ++ " file") ∧
    (∀ (fi : FileInfo) tr dr cols hs d colA,
      generateQuickSummary fi (.csvData tr dr cols hs d colA) =
        fi.name ++ " (" ++ fi.size_formatted ++ ") - " ++ "CSV with " ++
          toString dr ++ " rows, " ++ toString cols ++ " columns") ∧
    (∀ (fi : FileInfo) st est,
      generateQuickSummary fi (.jsonData st est) =
        fi.name ++ " (" ++ fi.size_formatted ++ ") - " ++ titleStr fi.type ++ " file") ∧
    (∀ (fi : FileInfo) t m sugg,
      generateQuickSummary fi (.unsupported t m sugg) =
        fi.name ++ " (" ++ fi.size_formatted ++ ") - " ++ titleStr fi.type ++ " file") ∧
    (∀ (fi : FileInfo) m,
      generateQuickSummary fi (.err m) =
        fi.name ++ " (" ++ fi.size_formatted ++ ") - " ++ titleStr fi.type ++ " file") := by
  refine ⟨fun fi i f c cm ds cx tl bl => rfl, ?_, fun fi tl tc cns avg cw enc => rfl,
    fun fi tr dr cols hs d colA => rfl, fun fi st est => rfl,
    fun fi t m sugg => rfl, fun fi m => rfl⟩
  intro fi tl tw tc cns avg cw enc htw
  have h : tw ≠ 0 := Nat.pos_iff_ne_zero.mp htw
  simp [generateQuickSummary, h]

/-- Witness for C6 at a concrete positive word count. -/
theorem quickSummary_clauses_amended_witness :
    generateQuickSummary fiZero (.textStats 1 3 17 15 3 [] "utf-8") =
      fiZero.name ++ " (" ++ fiZero.size_formatted ++ ") - " ++ "Text file with " ++
        toString 3 ++ " words, " ++ toString 1 ++ " lines" :=
  quickSummary_clauses_amended.2.1 fiZero 1 3 17 15 3 [] "utf-8" (by decide)

/-! ## C10: the encoding fallback always succeeds -/

/-- C10: because latin-1 decodes every byte sequence, the fallback loop always
finds an encoding; whenever the file's bytes can be read, the analyzer takes
the success path (so the decode-error branch is unreachable) and
`encoding_used` is the first of utf-8, utf-16, ascii, latin-1 that decodes the
content, as `firstDecodeSpec` expresses. -/
theorem encodingFallback_confirmed (fs : FileSystem) (p : String) (bs : List Nat)
    (h : fs p = some bs) :
    tryEncodings bs = some (firstDecodeSpec bs) ∧
    analyzeTextFile fs p = textStatsOf (firstDecodeSpec bs).2 (firstDecodeSpec bs).1 := by
  have h1 : tryEncodings bs = some (firstDecodeSpec bs) := by
    unfold tryEncodings encCandidates firstDecodeSpec
    cases h8 : decodeUtf8 bs with
    | some c => simp [tryEncodingsAux, h8]
    | none =>
      cases h16 : decodeUtf16 bs with
      | some c => simp [tryEncodingsAux, h8, h16]
      | none =>
        cases h7 : decodeAscii bs with
        | some c => simp [tryEncodingsAux, h8, h16, h7]
        | none => simp [tryEncodingsAux, h8, h16, h7, decodeLatin1]
  refine ⟨h1, ?_⟩
  simp only [analyzeTextFile, analyzeTextFileBody, h, h1, runCaught]

/-- Witness for C10 at a readable two-byte ASCII file. -/
theorem encodingFallback_confirmed_witness :
    tryEncodings [104, 105] = some (firstDecodeSpec [104, 105]) ∧
    analyzeTextFile (fun _ => some [104, 105]) "h.txt" =
      textStatsOf (firstDecodeSpec [104, 105]).2 (firstDecodeSpec [104, 105]).1 :=
  encodingFallback_confirmed (fun _ => some [104, 105]) "h.txt" [104, 105] rfl

/-! ## C1: analyze_content is total and converts internal failures to errors -/

/-- C1: for every file system, path and type category the dispatcher returns a
result value: a sub-analyzer success passes through unchanged, and any
internal exception a sub-analyzer would raise (I/O failure, decode failure,
parse failure) is caught and returned as the error record with the analyzer's
message prefix, never propagated. -/
theorem analyzeContent_total (fs : FileSystem) (p ft : String) :
    (∀ r, analyzeContentRaw fs p ft = .ok r → analyzeContent fs p ft = r) ∧
    (∀ e, analyzeContentRaw fs p ft = .error e →
      analyzeContent fs p ft = .err (catchPrefix p ft ++ e)) := by
  unfold analyzeContent analyzeContentRaw catchPrefix
    analyzePythonFile analyzeCsvFile analyzeJsonFile analyzeTextFile
  split_ifs <;>
    first
    | exact runCaught_spec _ _
    | exact ⟨fun r h => by cases h; rfl, fun e h => by cases h⟩

/-- Witness for C1: a missing file on the plain-text path is caught and
surfaces as the prefixed error record. -/
theorem analyzeContent_total_witness :
    analyzeContent (fun _ => none) "f.txt" "text" =
      .err (catchPrefix "f.txt" "text" ++ ioErrMsg "f.txt") :=
  (analyzeContent_total (fun _ => none) "f.txt" "text").2 (ioErrMsg "f.txt") rfl

/-! ## C3: common_words

The sorting model: `Counter.most_common(5)` is a stable descending sort of the
counter items truncated to five entries.  The stability argument is that
filtering the sorted list to any fixed count reproduces the corresponding
filter of the original item list, which is in first-occurrence order. -/

/-- Inserting into a list commutes with filtering to one fixed count: the new
pair lands in front of its own tie class and leaves every class otherwise
unchanged. -/
theorem filter_orderedInsert (c : Nat) (a : String × Nat) (l : List (String × Nat)) :
    (List.orderedInsert cntGe a l).filter (fun p => decide (p.2 = c)) =
      if a.2 = c then a :: l.filter (fun p => decide (p.2 = c))
      else l.filter (fun p => decide (p.2 = c)) := by
  induction l with
  | nil =>
    simp only [List.orderedInsert, List.filter]
    split_ifs with h1 <;> simp [h1]
  | cons b t ih =>
    by_cases hab : cntGe a b
    · rw [List.orderedInsert_of_le cntGe t hab]
      simp only [List.filter_cons]
      split_ifs <;> simp_all
    · have hlt : a.2 < b.2 := Nat.lt_of_not_le hab
      simp only [List.orderedInsert, if_neg hab, List.filter_cons]
      by_cases hbc : b.2 = c
      · have hac : ¬a.2 = c := by omega
        simp [hbc, hac, ih]
      · simp [hbc, ih]

/-- The insertion sort of the counter items preserves each tie class in
order: ties keep their first-occurrence order. -/
theorem filter_insertionSort (c : Nat) (l : List (String × Nat)) :
    (List.insertionSort cntGe l).filter (fun p => decide (p.2 = c)) =
      l.filter (fun p => decide (p.2 = c)) := by
  induction l with
  | nil => rfl
  | cons a t ih =>
    simp only [List.insertionSort, filter_orderedInsert, List.filter_cons]
    split_ifs with h1 <;> simp_all

/-- C3 counterexample: on the text `"abc abc1"` the analyzer's entry for
`"abc"` counts 1 because the source pattern carries word-boundary anchors,
while the claim's bare pattern `[A-Za-z]\x7b3,\x7d` matches `"abc"` twice
(once inside `"abc1"`) — so an entry's count does not equal the claimed
occurrence count. -/
theorem commonWords_pattern_counterexample :
    commonWords ("abc abc1".data) = [("abc", 1)] ∧
    ((commonWords ("abc abc1".data)).all
      (fun p => p.2 == (specTokens ("abc abc1".data)).count p.1)) = false := by
  refine ⟨by decide, by decide⟩

/-- C3 amended: `common_words` has at most five entries, is sorted by
descending count with ties in first-occurrence order, and each entry's count
is the token's occurrence count under the source's anchored pattern
`\b[A-Za-z]\x7b3,\x7d\b` (rather than the claim's unanchored one). -/
theorem commonWords_spec_amended (cs : List Char) :
    (commonWords cs).length ≤ 5 ∧
    List.Sorted cntGe (commonWords cs) ∧
    (∀ p ∈ commonWords cs, p.2 = (tokensOf cs).count p.1) ∧
    (∀ c : Nat, (List.insertionSort cntGe (wordPairs cs)).filter (fun p => decide (p.2 = c)) =
      (wordPairs cs).filter (fun p => decide (p.2 = c))) ∧
    commonWords cs = (List.insertionSort cntGe (wordPairs cs)).take 5 := by
  refine ⟨List.length_take_le 5 _, ?_, ?_, fun c => filter_insertionSort c _, rfl⟩
  · exact (List.sorted_insertionSort cntGe (wordPairs cs)).sublist (List.take_sublist 5 _)
  · intro p hp
    have hp2 : p ∈ List.insertionSort cntGe (wordPairs cs) := List.mem_of_mem_take hp
    have hp3 : p ∈ wordPairs cs := (List.perm_insertionSort cntGe (wordPairs cs)).mem_iff.mp hp2
    obtain ⟨w, _, hw⟩ := List.mem_map.mp hp3
    rw [← hw]

/-- Witness for C3: the count clause at a concrete text and entry. -/
theorem commonWords_spec_amended_witness :
    (("abc", 2) : String × Nat).2 = (tokensOf ("abc abc".data)).count ("abc", 2).1 :=
  (commonWords_spec_amended ("abc abc".data)).2.2.1 ("abc", 2) (by decide)

/-! ## C4: the empty-CSV error branch -/

/-- Splitting never yields an empty list of segments. -/
theorem splitOnChar_ne_nil (sep : Char) (cs : List Char) : splitOnChar sep cs ≠ [] := by
  cases cs with
  | nil => simp [splitOnChar]
  | cons c cs2 =>
    simp only [splitOnChar]
    rcases h : splitOnChar sep cs2 with _ | ⟨r, rs⟩
    · simp
    · split_ifs <;> simp

/-- Only the empty text splits into exactly one empty segment. -/
theorem splitOnChar_single_empty (sep : Char) (cs : List Char)
    (h : splitOnChar sep cs = [[]]) : cs = [] := by
  cases cs with
  | nil => rfl
  | cons c cs2 =>
    exfalso
    simp only [splitOnChar] at h
    rcases h2 : splitOnChar sep cs2 with _ | ⟨r, rs⟩
    · exact splitOnChar_ne_nil sep cs2 h2
    · rw [h2] at h
      split_ifs at h <;> simp at h

/-- A nonempty text parses to at least one `csv.reader` row. -/
theorem csvLines_ne_nil (cs : List Char) (h : cs ≠ []) : csvLines cs ≠ [] := by
  have hdef : csvLines cs =
      if (splitOnChar '\n' cs).getLast? = some [] then (splitOnChar '\n' cs).dropLast
      else splitOnChar '\n' cs := rfl
  rw [hdef]
  rcases hls : splitOnChar '\n' cs with _ | ⟨l, ls⟩
  · exact absurd hls (splitOnChar_ne_nil '\n' cs)
  · split_ifs with hlast
    · cases ls with
      | nil =>
        exfalso
        simp only [List.getLast?_singleton, Option.some.injEq] at hlast
        subst hlast
        exact h (splitOnChar_single_empty '\n' cs hls)
      | cons l2 ls2 => simp
    · simp

/-- The sniffer fails on an empty sample (there is no line to measure). -/
theorem sniffDelimiter_empty :
    sniffDelimiter [] = Except.error "Could not determine delimiter" := rfl

/-- Every sub-analyzer error message carries the CSV prefix and is therefore a
different string from `"CSV file is empty"`. -/
theorem csvErrMsg_ne (s : String) :
    ("Error analyzing CSV file: " ++ s) ≠ "CSV file is empty" := by
  intro h
  have h2 : ("Error analyzing CSV file: " ++ s).length = ("CSV file is empty").length := by
    rw [h]
  rw [String.length_append] at h2
  have e1 : ("Error analyzing CSV file: ").length = 26 := rfl
  have e2 : ("CSV file is empty").length = 17 := rfl
  omega

/-- Every run of the CSV analyzer ends in a prefixed error record or a
tabular result: the bare `"CSV file is empty"` record would require zero
parsed rows, which only the empty text produces, and on the empty text the
delimiter sniff fails first. -/
theorem analyzeCsvFile_cases (fs : FileSystem) (p : String) :
    (∃ e, analyzeCsvFile fs p = .err ("Error analyzing CSV file: " ++ e)) ∨
    (∃ headers dataRows,
      analyzeCsvFile fs p = .csvData (dataRows.length + 1) dataRows.length headers.length
        headers (String.singleton (sniffedOf fs p))
        (if !dataRows.isEmpty && !headers.isEmpty then buildCols headers dataRows else [])) := by
  rcases hfs : fs p with _ | bs
  · exact Or.inl ⟨ioErrMsg p, by simp [analyzeCsvFile, analyzeCsvBody, runCaught, hfs]⟩
  · rcases hdec : decodeUtf8 bs with _ | content
    · exact Or.inl ⟨utf8ErrMsg, by simp [analyzeCsvFile, analyzeCsvBody, runCaught, hfs, hdec]⟩
    · rcases hsn : sniffDelimiter (content.take 1024) with e | d
      · exact Or.inl ⟨e, by simp [analyzeCsvFile, analyzeCsvBody, runCaught, hfs, hdec, hsn]⟩
      · rcases hpc : parseCsv d content with _ | ⟨headers, dataRows⟩
        · exfalso
          have hc : content ≠ [] := by
            intro he
            subst he
            rw [show (([] : List Char).take 1024) = [] from rfl, sniffDelimiter_empty] at hsn
            exact Except.noConfusion hsn
          apply csvLines_ne_nil content hc
          have hmap : (csvLines content).map (rowOfLine d) = [] := hpc
          exact List.map_eq_nil_iff.mp hmap
        · refine Or.inr ⟨headers, dataRows, ?_⟩
          have hd : sniffedOf fs p = d := by
            simp [sniffedOf, hfs, hdec, hsn]
          rw [hd]
          simp [analyzeCsvFile, analyzeCsvBody, runCaught, hfs, hdec, hsn, hpc]

/-- C4 counterexample: the empty CSV file does not produce
`AnalysisError("CSV file is empty")` — delimiter sniffing fails first and the
result is the prefixed sniffer error. -/
theorem csvEmpty_sniff_counterexample :
    analyzeCsvFile (fun _ => some []) "e.csv" =
      .err "Error analyzing CSV file: Could not determine delimiter" ∧
    decide (analyzeCsvFile (fun _ => some []) "e.csv" = .err "CSV file is empty") = false := by
  refine ⟨by decide, by decide⟩

/-- C4 amended: the zero-rows branch exists in the source but is unreachable —
no input ever yields the result `AnalysisError("CSV file is empty")`, because
zero parsed rows occur only for empty content and the delimiter sniff raises
on the empty sample first; the empty CSV file instead yields
`AnalysisError("Error analyzing CSV file: Could not determine delimiter")`. -/
theorem csvEmptyError_unreachable_amended :
    (∀ (fs : FileSystem) (p : String),
      decide (analyzeCsvFile fs p = .err "CSV file is empty") = false) ∧
    analyzeCsvFile (fun _ => some []) "e.csv" =
      .err "Error analyzing CSV file: Could not determine delimiter" := by
  refine ⟨?_, by decide⟩
  intro fs p
  rw [decide_eq_false_iff_not]
  intro h
  rcases analyzeCsvFile_cases fs p with ⟨e, he⟩ | ⟨headers, dataRows, he⟩
  · rw [he] at h
    injection h with h2
    exact csvErrMsg_ne e h2
  · rw [he] at h
    exact AnalysisResult.noConfusion h

/-! ## C5: column_analysis keys versus headers -/

/-- Inserting a fresh key into a dict appends it. -/
theorem dictInsert_append : ∀ (m : List (String × ColStats)) (k : String) (v : ColStats),
    k ∉ m.map Prod.fst → dictInsert m k v = m ++ [(k, v)]
  | [], _, _, _ => rfl
  | (k2, v2) :: t, k, v, hk => by
    have h1 : ¬k2 = k := by
      intro he
      exact hk (by simp [he])
    have h2 : k ∉ t.map Prod.fst := fun hm => hk (by simp [hm])
    simp only [dictInsert, if_neg h1]
    rw [dictInsert_append t k v h2]
    simp

/-- Keys accumulated by the enumeration loop: when the pending headers are
disjoint from the keys already present (and themselves distinct), the final
key sequence is the concatenation. -/
theorem buildColsAux_keys (dataRows : List (List String)) :
    ∀ (hs : List String) (i : Nat) (m : List (String × ColStats)),
      (m.map Prod.fst ++ hs).Nodup →
      (buildColsAux dataRows i hs m).map Prod.fst = m.map Prod.fst ++ hs := by
  intro hs
  induction hs with
  | nil =>
    intro i m _
    simp [buildColsAux]
  | cons h t ih =>
    intro i m hnd
    have hk : h ∉ m.map Prod.fst := by
      intro hm
      exact (List.nodup_append.mp hnd).2.2 hm (List.mem_cons_self h t)
    have hstep : dictInsert m h (colStatsOf i dataRows) = m ++ [(h, colStatsOf i dataRows)] :=
      dictInsert_append m h _ hk
    have hnd2 : ((dictInsert m h (colStatsOf i dataRows)).map Prod.fst ++ t).Nodup := by
      rw [hstep]
      simpa [List.append_assoc] using hnd
    rw [buildColsAux, ih (i + 1) _ hnd2, hstep]
    simp

/-- With pairwise-distinct headers, the `column_analysis` keys are exactly the
headers, in order. -/
theorem buildCols_keys (headers : List String) (dataRows : List (List String))
    (hnd : headers.Nodup) : (buildCols headers dataRows).map Prod.fst = headers := by
  unfold buildCols
  rw [buildColsAux_keys dataRows headers 0 [] (by simpa using hnd)]
  simp

/-- C5 counterexample: with the repeated header row `a,a` the dict collapses
the two columns into one key, so the `per_column` keys are `["a"]`, not the
headers `["a", "a"]` — the claim fails for repeated header names. -/
theorem csvDuplicateHeaders_counterexample :
    analyzeCsvFile (fun _ => some ("a,a\n1,2\n".data.map Char.toNat)) "t.csv" =
      .csvData 2 1 2 ["a", "a"] ","
        [("a", { non_empty_count := 1, unique_values := 1, sample_values := ["2"] })] ∧
    decide (([("a", (⟨1, 1, ["2"]⟩ : ColStats))].map Prod.fst) = ["a", "a"]) = false := by
  refine ⟨by decide, by decide⟩

/-- C5 amended: whenever the analyzer returns a tabular result with column
statistics (at least one data row and a nonempty header row) and the headers
are pairwise distinct, the keys of `column_analysis` are exactly the headers
in order; with repeated headers the later occurrence overwrites the earlier
entry instead of adding a key. -/
theorem csvColumnKeys_amended (fs : FileSystem) (p : String) (tr dr cols : Nat)
    (hs : List String) (d : String) (colA : List (String × ColStats))
    (h : analyzeCsvFile fs p = .csvData tr dr cols hs d colA)
    (hdr : 0 < dr) (hhs : hs ≠ []) (hnd : hs.Nodup) :
    colA.map Prod.fst = hs := by
  rcases analyzeCsvFile_cases fs p with ⟨e, he⟩ | ⟨headers, dataRows, he⟩
  · rw [he] at h
    exact AnalysisResult.noConfusion h
  · rw [he] at h
    injection h with h1 h2 h3 h4 h5 h6
    subst h4
    rcases dataRows with _ | ⟨r0, rt⟩
    · rw [← h2] at hdr
      exact absurd hdr (by simp)
    · rcases hhead : headers with _ | ⟨h0, ht⟩
      · exact absurd hhead hhs
      · subst hhead
        rw [← h6]
        simp only [List.isEmpty_cons, Bool.not_false, Bool.and_self, if_true]
        exact buildCols_keys _ _ hnd

/-- Witness for C5 at a concrete two-column CSV with distinct headers. -/
theorem csvColumnKeys_amended_witness :
    ([("a", (⟨1, 1, ["1"]⟩ : ColStats)),
      ("b", (⟨1, 1, ["2"]⟩ : ColStats))].map Prod.fst) = ["a", "b"] :=
  csvColumnKeys_amended (fun _ => some ("a,b\n1,2\n".data.map Char.toNat)) "t.csv"
    2 1 2 ["a", "b"] ","
    [("a", { non_empty_count := 1, unique_values := 1, sample_values := ["1"] }),
     ("b", { non_empty_count := 1, unique_values := 1, sample_values := ["2"] })]
    (by decide) (by decide) (by decide) (by decide)

/-! ## C9: the rounded average words per line -/

/-- Round-half-to-even lands within one half of its argument. -/
theorem roundHalfEven_abs (x : ℚ) : |(roundHalfEven x : ℚ) - x| ≤ 1 / 2 := by
  have h0 : (0 : ℚ) ≤ x - ⌊x⌋ := sub_nonneg.2 (Int.floor_le x)
  have h1 : x - ⌊x⌋ < 1 := by
    have := Int.lt_floor_add_one x
    linarith
  simp only [roundHalfEven]
  split_ifs <;> rw [abs_le] <;> constructor <;> push_cast <;> linarith

/-- Python's `round(x, 2)` lands within `1/200` of its argument. -/
theorem round2_abs (x : ℚ) : |round2 x - x| ≤ 1 / 200 := by
  have h := roundHalfEven_abs (x * 100)
  have e : round2 x - x = ((roundHalfEven (x * 100) : ℚ) - x * 100) / 100 := by
    unfold round2
    ring
  rw [e, abs_div]
  have h100 : |(100 : ℚ)| = 100 := by norm_num
  rw [h100]
  linarith

/-- Evaluation of the rounded average at one word over thirty lines. -/
theorem round2_one_over_thirty : round2 ((1 : ℚ) / 30) = 3 / 100 := by
  have hfl : ⌊(1 : ℚ) / 30 * 100⌋ = 3 := by
    rw [show (1 : ℚ) / 30 * 100 = 10 / 3 by norm_num, Int.floor_eq_iff]
    constructor <;> norm_num
  simp only [round2, roundHalfEven, hfl]
  norm_num

/-- The analyzer's result on the text of one word followed by 29 newlines. -/
theorem analyzeTextFile_thirty_lines :
    analyzeTextFile (fun _ => some (97 :: List.replicate 29 10)) "n.txt" =
      .textStats 30 1 30 1 (3 / 100) [] "utf-8" := by
  have h1 : analyzeTextFile (fun _ => some (97 :: List.replicate 29 10)) "n.txt" =
      textStatsOf ('a' :: List.replicate 29 '\n') "utf-8" := rfl
  rw [h1]
  simp only [textStatsOf,
    show (splitOnChar '\n' ('a' :: List.replicate 29 '\n')).length = 30 from by decide,
    show (splitWS ('a' :: List.replicate 29 '\n')).length = 1 from by decide,
    show ('a' :: List.replicate 29 '\n').length = 30 from by decide,
    show (('a' :: List.replicate 29 '\n').filter
      (fun c => !(c == ' ' || c == '\n' || c == '\t'))).length = 1 from by decide,
    show commonWords ('a' :: List.replicate 29 '\n') = [] from by decide]
  have hmax : (max 30 1 : Nat) = 30 := by norm_num
  rw [hmax, show (((1 : Nat) : ℚ) / ((30 : Nat) : ℚ)) = (1 : ℚ) / 30 by norm_num,
    round2_one_over_thirty]

/-- C9 counterexample: on one word spread over 30 lines the analyzer rounds
the average to `0.03`, and `0.03 * 30 = 0.9` is a full `0.1` away from the
word count 1 — far outside the claimed `0.01` tolerance. -/
theorem avgWordsBound_counterexample :
    analyzeTextFile (fun _ => some (97 :: List.replicate 29 10)) "n.txt" =
      .textStats 30 1 30 1 (3 / 100) [] "utf-8" ∧
    (|(3 / 100 : ℚ) * 30 - 1| ≤ 1 / 100) = False := by
  refine ⟨analyzeTextFile_thirty_lines, eq_false ?_⟩
  rw [show (3 / 100 : ℚ) * 30 - 1 = -(1 / 10) by norm_num, abs_neg,
    abs_of_nonneg (by norm_num : (0 : ℚ) ≤ 1 / 10)]
  norm_num

/-- C9 amended: for every text result with a positive line count,
`avg_words_per_line * total_lines` is within `total_lines / 200` of
`total_words` (the rounding error of the per-line average scales with the
number of lines; the claimed fixed `0.01` bound holds only for at most two
lines). -/
theorem avgWordsBound_amended (fs : FileSystem) (p : String)
    (tl tw tc cns : Nat) (avg : ℚ) (cw : List (String × Nat)) (enc : String)
    (h : analyzeTextFile fs p = .textStats tl tw tc cns avg cw enc)
    (hl : 0 < tl) :
    |avg * (tl : ℚ) - (tw : ℚ)| ≤ (tl : ℚ) / 200 := by
  rcases hfs : fs p with _ | bs
  · rw [show analyzeTextFile fs p = .err ("Error analyzing text file: " ++ ioErrMsg p) from by
      simp [analyzeTextFile, analyzeTextFileBody, runCaught, hfs]] at h
    exact AnalysisResult.noConfusion h
  · rcases htry : tryEncodings bs with _ | ⟨enc2, content⟩
    · rw [show analyzeTextFile fs p = .err "Could not decode file with supported encodings" from by
        simp [analyzeTextFile, analyzeTextFileBody, runCaught, hfs, htry]] at h
      exact AnalysisResult.noConfusion h
    · rw [show analyzeTextFile fs p = textStatsOf content enc2 from by
        simp [analyzeTextFile, analyzeTextFileBody, runCaught, hfs, htry]] at h
      simp only [textStatsOf] at h
      injection h with h1 h2 h3 h4 h5 h6 h7
      subst h1
      subst h2
      subst h5
      have hmax : (max (splitOnChar '\n' content).length 1) = (splitOnChar '\n' content).length :=
        Nat.max_eq_left hl
      rw [hmax]
      set L := (splitOnChar '\n' content).length with hL
      set W := (splitWS content).length with hW
      have hLpos : (0 : ℚ) < (L : ℚ) := by exact_mod_cast hl
      have hq : ((W : ℚ) / (L : ℚ)) * (L : ℚ) = (W : ℚ) :=
        div_mul_cancel₀ _ (ne_of_gt hLpos)
      have key : round2 ((W : ℚ) / (L : ℚ)) * (L : ℚ) - (W : ℚ) =
          (round2 ((W : ℚ) / (L : ℚ)) - (W : ℚ) / (L : ℚ)) * (L : ℚ) := by
        rw [sub_mul, hq]
      rw [key, abs_mul, abs_of_pos hLpos]
      have hr := round2_abs ((W : ℚ) / (L : ℚ))
      calc |round2 ((W : ℚ) / (L : ℚ)) - (W : ℚ) / (L : ℚ)| * (L : ℚ)
          ≤ (1 / 200) * (L : ℚ) := mul_le_mul_of_nonneg_right hr hLpos.le
        _ = (L : ℚ) / 200 := by ring

/-- Witness for C9 at the 30-line, one-word text. -/
theorem avgWordsBound_amended_witness :
    |(3 / 100 : ℚ) * ((30 : Nat) : ℚ) - ((1 : Nat) : ℚ)| ≤ ((30 : Nat) : ℚ) / 200 :=
  avgWordsBound_amended (fun _ => some (97 :: List.replicate 29 10)) "n.txt"
    30 1 30 1 (3 / 100) [] "utf-8" analyzeTextFile_thirty_lines (by decide)

/-! ## C7: the serialize/deserialize round trip -/

mutual
/-- Dumping a Python value to JSON and loading it back yields the value with
every tuple turned into a list. -/
theorem jToPy_pyToJ : ∀ v : PyVal, jToPy (pyToJ v) = detuple v
  | .pstr _ => by simp only [pyToJ, jToPy, detuple]
  | .pint _ => by simp only [pyToJ, jToPy, detuple]
  | .pfloat _ => by simp only [pyToJ, jToPy, detuple]
  | .pbool _ => by simp only [pyToJ, jToPy, detuple]
  | .pnone => by simp only [pyToJ, jToPy, detuple]
  | .plist xs => by
    simp only [pyToJ, jToPy, detuple]
    rw [jToPyArr_pyToJList xs]
  | .ptuple xs => by
    simp only [pyToJ, jToPy, detuple]
    rw [jToPyArr_pyToJList xs]
  | .pdict fields => by
    simp only [pyToJ, jToPy, detuple]
    rw [jToPyObj_pyToJDict fields]

/-- Round trip over sequence elements. -/
theorem jToPyArr_pyToJList : ∀ xs : PyList, jToPyArr (pyToJList xs) = detupleList xs
  | .nil => by simp only [pyToJList, jToPyArr, detupleList]
  | .cons x xs => by
    simp only [pyToJList, jToPyArr, detupleList]
    rw [jToPy_pyToJ x, jToPyArr_pyToJList xs]

/-- Round trip over dict fields. -/
theorem jToPyObj_pyToJDict : ∀ fields : PyDict, jToPyObj (pyToJDict fields) = detupleDict fields
  | .nil => by simp only [pyToJDict, jToPyObj, detupleDict]
  | .cons k v fields => by
    simp only [pyToJDict, jToPyObj, detupleDict]
    rw [jToPy_pyToJ v, jToPyObj_pyToJDict fields]
end

/-- String lists carry no tuples. -/
theorem detupleList_pyStrList (xs : List String) : detupleList (pyStrList xs) = pyStrList xs := by
  induction xs with
  | nil => rfl
  | cons s ss ih =>
    simp only [pyStrList, detupleList, detuple]
    rw [ih]

/-- Per-column records carry no tuples. -/
theorem detuple_pyColStats (c : ColStats) : detuple (pyColStats c) = pyColStats c := by
  simp only [pyColStats, detuple, detupleDict, detupleList_pyStrList]

/-- The column dict carries no tuples. -/
theorem detupleDict_pyColsDict (cols : List (String × ColStats)) :
    detupleDict (pyColsDict cols) = pyColsDict cols := by
  induction cols with
  | nil => rfl
  | cons p ps ih =>
    simp only [pyColsDict, detupleDict]
    rw [detuple_pyColStats, ih]

/-- The structure record carries no tuples. -/
theorem detuple_structPy (st : JStruct) : detuple (structPy st) = structPy st := by
  cases st with
  | obj k names => simp only [structPy, detuple, detupleDict, detupleList_pyStrList]
  | arr l types => simp only [structPy, detuple, detupleDict, detupleList_pyStrList]
  | scalar t => simp only [structPy, detuple, detupleDict]

/-- The metadata dict carries no tuples. -/
theorem detuple_fiPy (fi : FileInfo) : detuple (fiPy fi) = fiPy fi := by
  simp only [fiPy, detuple, detupleDict]

/-- A result without `common_words` entries carries no tuples. -/
theorem detuple_caPy (ca : AnalysisResult) (h : cwEmpty ca = true) :
    detuple (caPy ca) = caPy ca := by
  cases ca with
  | textStats tl tw tc cns avg cw enc =>
    have hcw : cw = [] := by
      cases cw with
      | nil => rfl
      | cons p ps => exact absurd h (by simp [cwEmpty])
    subst hcw
    simp only [caPy, pyCwList, detuple, detupleDict, detupleList]
  | pythonCode i f c cm ds cx tl bl => simp only [caPy, detuple, detupleDict]
  | csvData tr dr cols hs d colA =>
    simp only [caPy, detuple, detupleDict, detupleList_pyStrList, detupleDict_pyColsDict]
  | jsonData st est => simp only [caPy, detuple, detupleDict, detuple_structPy]
  | unsupported t m sugg => cases sugg <;> simp only [caPy, detuple, detupleDict]
  | err m => simp only [caPy, detuple, detupleDict]

/-- Constructor equation of `detuple` at a dict. -/
theorem detuple_pdict (fields : PyDict) :
    detuple (.pdict fields) = .pdict (detupleDict fields) := by
  simp only [detuple]

/-- Constructor equation of `detupleDict` at a field. -/
theorem detupleDict_cons (k : String) (v : PyVal) (tl : PyDict) :
    detupleDict (.cons k v tl) = .cons k (detuple v) (detupleDict tl) := by
  simp only [detupleDict]

/-- Constructor equation of `detupleDict` at the empty dict. -/
theorem detupleDict_nil : detupleDict .nil = .nil := by
  simp only [detupleDict]

/-- Constructor equation of `detuple` at a string. -/
theorem detuple_pstr (s : String) : detuple (.pstr s) = .pstr s := by
  simp only [detuple]

/-- A document without `common_words` entries carries no tuples. -/
theorem detuple_docPy (ts : String) (fi : FileInfo) (ca : AnalysisResult)
    (h : cwEmpty ca = true) : detuple (docPy ts fi ca) = docPy ts fi ca := by
  simp only [docPy, detuple_pdict, detupleDict_cons, detupleDict_nil, detuple_pstr,
    detuple_fiPy, detuple_caPy ca h]

/-- C7 counterexample: a document whose text result has the nonempty
`common_words` list `[("the", 2)]` does not round-trip to an equal value —
`json.dumps` writes the `(word, count)` tuple as a JSON array and `json.loads`
returns it as a list, which is a different Python value. -/
theorem jsonRoundTrip_tuple_counterexample :
    (jToPy (pyToJ (docPy "t" fiZero caTuple)) = docPy "t" fiZero caTuple) = False := by
  apply eq_false
  intro h
  rw [jToPy_pyToJ] at h
  simp [docPy, caTuple, fiZero, caPy, fiPy, pyCwList, detuple, detupleDict, detupleList] at h

/-- C7 amended: serializing the report document and deserializing it yields
the original value with each `common_words` `(word, count)` pair returned as a
two-element list instead of a pair; for every result without `common_words`
entries (every non-text variant, and text results with an empty list) the
round trip reproduces the document exactly, fields and order included. -/
theorem jsonRoundTrip_amended (ts : String) (fi : FileInfo) (ca : AnalysisResult) :
    jToPy (pyToJ (docPy ts fi ca)) = detuple (docPy ts fi ca) ∧
    (cwEmpty ca = true → jToPy (pyToJ (docPy ts fi ca)) = docPy ts fi ca) :=
  ⟨jToPy_pyToJ _, fun h => (jToPy_pyToJ _).trans (detuple_docPy ts fi ca h)⟩

/-- Witness for C7 on a tuple-free document. -/
theorem jsonRoundTrip_amended_witness :
    jToPy (pyToJ (docPy "t" fiZero (.err "boom"))) = docPy "t" fiZero (.err "boom") :=
  (jsonRoundTrip_amended "t" fiZero (.err "boom")).2 rfl

end FileAnalyzer
